import Mathlib

/-!
Verification of the Propertime time/time-span arithmetic and timezone
disambiguation engine, as described by the repository's specification and
exercised by the Quickstart notebook.  The `propertime` Python package itself
is not part of the provided sources (only the README, the Quickstart notebook
with its recorded outputs, the docs and packaging scripts are), so the engine
is modelled from the specification, with the notebook's recorded cell outputs
and asserts taken as the authoritative behaviour wherever they speak.
Epoch values (floats in the implementation) are modelled exactly as integer
microsecond counts; `Time.epochSeconds` and `TimeSpan.as_seconds` expose the
second-valued rational readings the notebook displays.  All behaviour
exercised by the claims is at whole-second resolution, where float and
integer-microsecond arithmetic agree exactly.
-/

set_option autoImplicit false
set_option maxRecDepth 100000

namespace Propertime

/-- Microseconds per second: epoch scalars are held as integer microsecond
counts. -/
def usec : Int := 1000000

/-- Civil (wall-clock) date-time fields, the `datetime`-like representation a
`Time` renders to in its time zone before calendar arithmetic is applied. -/
structure Civil where
  year : Int
  month : Int
  day : Int
  hour : Int
  minute : Int
  second : Int
deriving DecidableEq

/-- Gregorian leap-year rule. -/
def isLeap (y : Int) : Bool :=
  Int.emod y 4 == 0 && (Int.emod y 100 != 0 || Int.emod y 400 == 0)

/-- Number of days of month `m` of year `y` in the proleptic Gregorian
calendar. -/
def daysInMonth (y m : Int) : Int :=
  if m == 2 then (if isLeap y then 29 else 28)
  else if m == 4 || m == 6 || m == 9 || m == 11 then 30
  else 31

/-- Days elapsed from 1970-01-01 to the civil date `y-m-d` (Hinnant's
days-from-civil algorithm, written with Euclidean division so it is valid for
every year). -/
def daysFromCivil (y m d : Int) : Int :=
  let y2 := if m ≤ 2 then y - 1 else y
  let m2 := if m ≤ 2 then m + 12 else m
  365 * y2 + Int.ediv y2 4 - Int.ediv y2 100 + Int.ediv y2 400 +
    Int.ediv (153 * (m2 - 3) + 2) 5 + d - 719469

/-- Civil date `(y, m, d)` of the day `z` days after 1970-01-01 (Hinnant's
civil-from-days algorithm). -/
def civilFromDays (z : Int) : Int × Int × Int :=
  let za := z + 719468
  let era := Int.ediv za 146097
  let doe := Int.emod za 146097
  let yoe := Int.ediv (doe - Int.ediv doe 1460 + Int.ediv doe 36524 - Int.ediv doe 146096) 365
  let y := yoe + era * 400
  let doy := doe - (365 * yoe + Int.ediv yoe 4 - Int.ediv yoe 100)
  let mp := Int.ediv (5 * doy + 2) 153
  let d := doy - Int.ediv (153 * mp + 2) 5 + 1
  let m := if mp < 10 then mp + 3 else mp - 9
  (if m ≤ 2 then y + 1 else y, m, d)

/-- Seconds elapsed from 1970-01-01T00:00:00 to the civil date-time `c`, read
as if it were UTC (the "naive" epoch of a wall-clock reading). -/
def secsFromCivil (c : Civil) : Int :=
  daysFromCivil c.year c.month c.day * 86400 + c.hour * 3600 + c.minute * 60 + c.second

/-- Civil date-time `n` seconds after 1970-01-01T00:00:00, read as UTC. -/
def civilFromSecs (n : Int) : Civil :=
  let z := Int.ediv n 86400
  let r := Int.emod n 86400
  let ymd := civilFromDays z
  ⟨ymd.1, ymd.2.1, ymd.2.2, Int.ediv r 3600, Int.ediv (Int.emod r 3600) 60, Int.emod r 60⟩

/-- The named time zones exercised by the specification's examples. -/
inductive ZoneName where
  | utc
  | europeRome
  | americaNewYork
deriving DecidableEq

/-- Modelled from the spec: the rule data the external timezone database
provider supplies for one zone — its standard and DST UTC offsets and the two
epoch instants (in seconds) at which DST begins and ends.  The table below
instantiates it with the 2023 transitions, which cover every civil time the
specification and the notebook exercise. -/
structure TzRule where
  stdOffset : Int
  dstOffset : Int
  dstStartEpoch : Int
  dstEndEpoch : Int

/-- Rule data for the modelled zones: UTC never observes DST; Europe/Rome is
UTC+1/UTC+2 with the 2023 DST interval; America/New_York is UTC-5/UTC-4 with
the 2023 DST interval. -/
def zoneRule : ZoneName → TzRule
  | .utc => ⟨0, 0, 0, 0⟩
  | .europeRome => ⟨3600, 7200, 1679792400, 1698541200⟩
  | .americaNewYork => ⟨-18000, -14400, 1678604400, 1699164000⟩

/-- UTC offset (seconds) in force in zone `z` at epoch second `e`. -/
def offsetAt (z : ZoneName) (e : Int) : Int :=
  let r := zoneRule z
  if r.dstStartEpoch ≤ e ∧ e < r.dstEndEpoch then r.dstOffset else r.stdOffset

/-- Whether DST is in force in zone `z` at epoch second `e`. -/
def isdstAt (z : ZoneName) (e : Int) : Bool :=
  let r := zoneRule z
  decide (r.dstStartEpoch ≤ e ∧ e < r.dstEndEpoch)

/-- Modelled from the spec: the Span Model (`TimeSpan`, §3) — signed magnitudes
for each calendar/physical unit; the `propertime` implementation of the class
is not among the sources. -/
structure TimeSpan where
  years : Int
  months : Int
  weeks : Int
  days : Int
  hours : Int
  minutes : Int
  seconds : Int
  microseconds : Int
deriving DecidableEq

/-- The all-zero time span. -/
def zeroSpan : TimeSpan := ⟨0, 0, 0, 0, 0, 0, 0, 0⟩

/-- A span's kind is Calendar iff any of years/months/weeks/days is non-zero
(§3 Data Model); otherwise it is Physical. -/
def TimeSpan.isCalendar (s : TimeSpan) : Bool :=
  s.years != 0 || s.months != 0 || s.weeks != 0 || s.days != 0

/-- Fixed duration, in microseconds, of the physical components of a span. -/
def TimeSpan.physicalUs (s : TimeSpan) : Int :=
  (s.hours * 3600 + s.minutes * 60 + s.seconds) * usec + s.microseconds

/-- Modelled from the spec: `TimeSpan.__eq__` (not among the sources).  The
spec's componentwise rule is kept for spans with a calendar component, but the
Quickstart notebook's recorded asserts pin the behaviour for purely physical
spans: `TimeSpan('1h') == TimeSpan('3600s') == TimeSpan(seconds=3600) ==
TimeSpan(hours=1)` and `TimeSpan('24h') == TimeSpan('86400s')`, so two
physical spans compare by their fixed duration, while `TimeSpan('1D') !=
TimeSpan('86400s')` keeps calendar spans componentwise. -/
def tsEq (a b : TimeSpan) : Bool :=
  if a.isCalendar || b.isCalendar then decide (a = b)
  else decide (a.physicalUs = b.physicalUs)

/-- Parse an unsigned run of decimal digits, accumulating left to right. -/
def parseDigitsAux : List Char → Nat → Option Nat
  | [], acc => some acc
  | c :: cs, acc =>
    if c.isDigit then parseDigitsAux cs (acc * 10 + (c.toNat - 48)) else none

/-- Parse an optionally signed integer magnitude; fails on an empty string of
digits or on any non-digit character. -/
def parseMagnitude : List Char → Option Int
  | [] => none
  | '-' :: cs => if cs.isEmpty then none else (parseDigitsAux cs 0).map (fun n => -(n : Int))
  | '+' :: cs => if cs.isEmpty then none else (parseDigitsAux cs 0).map (fun n => (n : Int))
  | cs => (parseDigitsAux cs 0).map (fun n => (n : Int))

/-- Set the component selected by a unit code: lowercase s/m/h are physical
seconds/minutes/hours, uppercase D/W/M/Y are calendar days/weeks/months/years
(§4.3 Span Grammar); any other code is unknown and fails. -/
def setUnit (s : TimeSpan) (u : Char) (v : Int) : Option TimeSpan :=
  if u = 's' then some { s with seconds := v }
  else if u = 'm' then some { s with minutes := v }
  else if u = 'h' then some { s with hours := v }
  else if u = 'D' then some { s with days := v }
  else if u = 'W' then some { s with weeks := v }
  else if u = 'M' then some { s with months := v }
  else if u = 'Y' then some { s with years := v }
  else none

/-- Parse a list of `<sign?><integer><unit-code>` tokens, rejecting duplicate
units within one literal (§4.3). -/
def parseTokens : List (List Char) → List Char → TimeSpan → Option TimeSpan
  | [], _, s => some s
  | t :: ts, seen, s =>
    match t.getLast? with
    | none => none
    | some u =>
      if seen.contains u then none
      else
        match parseMagnitude t.dropLast with
        | none => none
        | some v =>
          match setUnit s u v with
          | none => none
          | some s2 => parseTokens ts (u :: seen) s2

/-- Split a character list on underscores (the literal's token separator). -/
def splitUnderscore : List Char → List (List Char)
  | [] => [[]]
  | c :: cs =>
    let r := splitUnderscore cs
    if c = '_' then [] :: r
    else
      match r with
      | [] => [[c]]
      | t :: ts => (c :: t) :: ts

/-- Modelled from the spec: the Span Grammar parser (§4.3) — tokens joined by
underscores; fails on an unknown unit code, a duplicate unit, an empty
literal, or a non-integer magnitude. -/
def tsParse (str : String) : Option TimeSpan :=
  let toks := splitUnderscore str.toList
  if toks.any (fun t => t.isEmpty) then none
  else parseTokens toks [] zeroSpan

/-- Modelled from the spec: an Instant (`Time`, §3) — the epoch scalar (here
in integer microseconds) plus presentation metadata (optional zone, UTC
offset in force, in seconds) and the guessing flag given at construction
(§4.4 step 4 propagates it).  The `propertime` implementation of the class is
not among the sources. -/
structure Time where
  epochUs : Int
  tz : Option ZoneName
  offset : Int
  guessing : Bool
deriving DecidableEq

/-- The epoch scalar of a `Time`, as the second-valued number the
implementation holds as a float and the notebook displays. -/
def Time.epochSeconds (t : Time) : ℚ :=
  (t.epochUs : ℚ) / 1000000

/-- The non-fatal warning emitted when guessing mode resolves a DST fold,
identifying the civil time, the zone and the offset that was assumed. -/
structure GuessWarning where
  civil : Civil
  zone : ZoneName
  assumedOffset : Int
deriving DecidableEq

/-- Successful result of the Timezone Resolver: the epoch second, the offset
in force, the DST flag, and the warning when the result was guessed. -/
structure Resolved where
  epoch : Int
  offset : Int
  isdst : Bool
  warn : Option GuessWarning
deriving DecidableEq

/-- Error kinds of the engine (§7), as structured values carrying what the
corresponding messages report: gap and fold errors name the civil time and
zone; calendar-overflow errors name the offending date and the amount of
months (or years) of the span; shift errors wrap the original instant, the
attempted span, and the inner resolution error. -/
inductive TimeError where
  | nonexistent (civil : Civil) (zone : ZoneName)
  | ambiguous (civil : Civil) (zone : ZoneName)
  | dayOutOfRange (civil : Civil) (months : Int)
  | dayOutOfRangeYears (civil : Civil) (years : Int)
  | cannotShift (t : Time) (s : TimeSpan) (inner : TimeError)
  | undefinedSpanDuration
  | compositeSpan (s : TimeSpan)
deriving DecidableEq

/-- Modelled from the spec: the Timezone Resolver (§4.1; the implementation
and the external tz database are not among the sources).  Candidate epochs
are the naive reading minus each of the zone's two offsets, kept when that
offset is actually in force there; no candidate is a DST gap, two candidates
are a fold, resolved by an explicit offset (used as-is, no clamping), by
guessing (the standard offset, with a warning — the notebook's recorded
output shows -05:00 being assumed for the 2023-11-05 01:15 America/New_York
fold), or failing with an ambiguity error. -/
def resolve (z : ZoneName) (c : Civil) (explicitOffset : Option Int) (allowGuess : Bool) :
    Except TimeError Resolved :=
  let naive := secsFromCivil c
  match explicitOffset with
  | some off => .ok ⟨naive - off, off, isdstAt z (naive - off), none⟩
  | none =>
    let r := zoneRule z
    let stdOk := offsetAt z (naive - r.stdOffset) == r.stdOffset
    let dstOk := r.dstOffset != r.stdOffset && offsetAt z (naive - r.dstOffset) == r.dstOffset
    if stdOk && dstOk then
      if allowGuess then
        .ok ⟨naive - r.stdOffset, r.stdOffset, isdstAt z (naive - r.stdOffset),
          some ⟨c, z, r.stdOffset⟩⟩
      else .error (.ambiguous c z)
    else if stdOk then
      .ok ⟨naive - r.stdOffset, r.stdOffset, isdstAt z (naive - r.stdOffset), none⟩
    else if dstOk then
      .ok ⟨naive - r.dstOffset, r.dstOffset, isdstAt z (naive - r.dstOffset), none⟩
    else .error (.nonexistent c z)

/-- Modelled from the spec: construction of a `Time` from explicit calendar
fields (§4.2), funneled through the resolver.  With no `tz` and no `offset`
the fields default to UTC (README: "Defaults to UTC, there is no such thing
as naive time"); with only an `offset` the instant carries that fixed offset
and no zone; with a `tz` the resolver disambiguates, using the explicit
offset or the guessing flag at a fold. -/
def timeFromFields (y mo d h mi se : Int) (tz : Option ZoneName) (off : Option Int)
    (guessing : Bool) : Except TimeError (Time × Option GuessWarning) :=
  let c : Civil := ⟨y, mo, d, h, mi, se⟩
  let zOpt := match tz, off with
    | none, none => some ZoneName.utc
    | _, _ => tz
  match zOpt with
  | some z =>
    match resolve z c off guessing with
    | .ok r => .ok (⟨r.epoch * usec, some z, r.offset, guessing⟩, r.warn)
    | .error e => .error e
  | none =>
    let o := off.getD 0
    .ok (⟨(secsFromCivil c - o) * usec, none, o, guessing⟩, none)

/-- Civil rendering of a `Time` in its attached zone (or at its fixed
offset): the wall-clock fields at the offset in force at its epoch. -/
def Time.toCivil (t : Time) : Civil :=
  let n := Int.fdiv t.epochUs usec
  let off := match t.tz with
    | some z => offsetAt z n
    | none => t.offset
  civilFromSecs (n + off)

/-- Sub-second part of a `Time`'s epoch, in microseconds. -/
def Time.fracUs (t : Time) : Int :=
  Int.fmod t.epochUs usec

/-- The tri-state DST flag of a `Time`: known from the zone rules when a
named zone is attached, unknown otherwise. -/
def Time.isDst (t : Time) : Option Bool :=
  t.tz.map (fun z => isdstAt z (Int.fdiv t.epochUs usec))

/-- Shift a civil date-time by whole days, keeping the wall-clock time. -/
def civilPlusDays (c : Civil) (n : Int) : Civil :=
  let ymd := civilFromDays (daysFromCivil c.year c.month c.day + n)
  ⟨ymd.1, ymd.2.1, ymd.2.2, c.hour, c.minute, c.second⟩

/-- Flat addition of seconds to the civil wall-clock fields, carrying over
into days/months/years by normal clock rules (§4.4 step 3). -/
def civilPlusSecs (c : Civil) (n : Int) : Civil :=
  civilFromSecs (secsFromCivil c + n)

/-- Apply the years component: the year field is adjusted and nothing is
clamped — if the day-of-month does not exist in the target month the step
fails with a calendar-overflow error naming the source date and the years
amount (§4.4 step 2). -/
def applyYears (c : Civil) (k : Int) : Except TimeError Civil :=
  if k == 0 then .ok c
  else
    let y2 := c.year + k
    if c.day ≤ daysInMonth y2 c.month then .ok ⟨y2, c.month, c.day, c.hour, c.minute, c.second⟩
    else .error (.dayOutOfRangeYears c k)

/-- Apply the months component, with the same no-clamping overflow rule; the
notebook's recorded message "Day is out of range for month for 2023-01-31
00:00:00+00:00 plus 1 month(s)" shows the error naming the source date and
the months amount. -/
def applyMonths (c : Civil) (k : Int) : Except TimeError Civil :=
  if k == 0 then .ok c
  else
    let tot := c.month - 1 + k
    let y2 := c.year + Int.ediv tot 12
    let m2 := Int.emod tot 12 + 1
    if c.day ≤ daysInMonth y2 m2 then .ok ⟨y2, m2, c.day, c.hour, c.minute, c.second⟩
    else .error (.dayOutOfRange c k)

/-- Destination civil date-time of `Instant + Span` along the wall-clock path
(§4.4 steps 1-3): render the instant to civil fields, apply calendar
components in descending unit order (years, months, then weeks and days),
then flat-add the physical components to the wall clock. -/
def civilDest (t : Time) (s : TimeSpan) : Except TimeError Civil :=
  let c := t.toCivil
  match applyYears c s.years with
  | .error e => .error e
  | .ok c1 =>
    match applyMonths c1 s.months with
    | .error e => .error e
    | .ok c2 =>
      let c3 := civilPlusDays c2 (s.weeks * 7 + s.days)
      .ok (civilPlusSecs c3 (s.hours * 3600 + s.minutes * 60 + s.seconds))

/-- Modelled from the spec: the Arithmetic Engine's `Instant + Span` (§4.4;
`Time.__add__`/`TimeSpan.shift` are not among the sources).  A span with a
calendar component goes through the wall-clock path and is re-resolved
against the original zone, propagating the construction's guessing mode and
wrapping any gap/fold error with the original instant and the attempted span
(the notebook's "Cannot shift ... by ... (...)" messages); a purely physical
span is applied directly to the epoch scalar, which the notebook shows
succeeding even into a DST fold. -/
def timeAdd (t : Time) (s : TimeSpan) : Except TimeError Time :=
  if s.isCalendar then
    match civilDest t s with
    | .error e => .error e
    | .ok c =>
      match t.tz with
      | some z =>
        match resolve z c none t.guessing with
        | .ok r => .ok ⟨r.epoch * usec + t.fracUs + s.microseconds, t.tz, r.offset, t.guessing⟩
        | .error e => .error (.cannotShift t s e)
      | none =>
        .ok ⟨(secsFromCivil c - t.offset) * usec + t.fracUs + s.microseconds,
          none, t.offset, t.guessing⟩
  else
    let e2 := t.epochUs + s.physicalUs
    let off := match t.tz with
      | some z => offsetAt z (Int.fdiv e2 usec)
      | none => t.offset
    .ok ⟨e2, t.tz, off, t.guessing⟩

/-- Modelled from the spec: `TimeSpan.as_seconds` (§6; not among the
sources), at microsecond resolution — always defined for a Physical span, and
defined for a span with a calendar component only relative to a starting
instant, as the epoch length of actually applying the span there; fails with
`UndefinedSpanDuration` otherwise. -/
def TimeSpan.asSecondsUs (s : TimeSpan) (startingAt : Option Time) : Except TimeError Int :=
  if s.isCalendar then
    match startingAt with
    | none => .error .undefinedSpanDuration
    | some t =>
      match timeAdd t s with
      | .ok t2 => .ok (t2.epochUs - t.epochUs)
      | .error e => .error e
  else .ok s.physicalUs

/-- The second-valued reading of `as_seconds`, the scalar the implementation
returns as a float. -/
def TimeSpan.as_seconds (s : TimeSpan) (startingAt : Option Time) : Except TimeError ℚ :=
  (s.asSecondsUs startingAt).map (fun n => (n : ℚ) / 1000000)

/-- Number of non-zero components of a span (the Boundary Engine operates
only on single-unit spans, §4.5). -/
def TimeSpan.unitCount (s : TimeSpan) : Nat :=
  (if s.years != 0 then 1 else 0) + (if s.months != 0 then 1 else 0) +
  (if s.weeks != 0 then 1 else 0) + (if s.days != 0 then 1 else 0) +
  (if s.hours != 0 then 1 else 0) + (if s.minutes != 0 then 1 else 0) +
  (if s.seconds != 0 then 1 else 0) + (if s.microseconds != 0 then 1 else 0)

/-- Modelled from the spec: the Boundary Engine's `floor` (§4.5; not among
the sources).  Composite spans are rejected; a calendar-unit floor computes
the start-of-unit civil date-time in the instant's zone and re-resolves it
(weeks snap to Monday); a physical-unit floor truncates the epoch in the
zone-local frame to the span's fixed seconds. -/
def TimeSpan.floor (s : TimeSpan) (t : Time) : Except TimeError Time :=
  if s.unitCount ≠ 1 then .error (.compositeSpan s)
  else if s.isCalendar then
    let c := t.toCivil
    let cb : Civil :=
      if s.years != 0 then ⟨c.year, 1, 1, 0, 0, 0⟩
      else if s.months != 0 then ⟨c.year, c.month, 1, 0, 0, 0⟩
      else if s.weeks != 0 then
        let zd := daysFromCivil c.year c.month c.day
        let ymd := civilFromDays (zd - Int.emod (zd + 3) 7)
        ⟨ymd.1, ymd.2.1, ymd.2.2, 0, 0, 0⟩
      else ⟨c.year, c.month, c.day, 0, 0, 0⟩
    match t.tz with
    | some z =>
      match resolve z cb none t.guessing with
      | .ok r => .ok ⟨r.epoch * usec, t.tz, r.offset, t.guessing⟩
      | .error e => .error e
    | none => .ok ⟨(secsFromCivil cb - t.offset) * usec, none, t.offset, t.guessing⟩
  else
    let u : Int :=
      if s.hours != 0 then s.hours * 3600
      else if s.minutes != 0 then s.minutes * 60
      else if s.seconds != 0 then s.seconds
      else 1
    if u ≤ 0 then .error (.compositeSpan s)
    else
      let n := Int.fdiv t.epochUs usec
      let off := match t.tz with
        | some z => offsetAt z n
        | none => t.offset
      let localUs := t.epochUs + off * usec
      .ok ⟨localUs - Int.fmod localUs (u * usec) - off * usec, t.tz, off, t.guessing⟩

/-- Modelled from the spec: `TimeSpan.shift` adds one full unit of the span,
i.e. it is exactly the Arithmetic Engine's addition (the notebook's `shift`
of 1D yields next day, same wall-clock time). -/
def TimeSpan.shift (s : TimeSpan) (t : Time) : Except TimeError Time :=
  timeAdd t s

/-- Modelled from the spec: the Boundary Engine's `ceil` — the mirror of
`floor`: the instant itself when already on a boundary, otherwise the floored
instant shifted by one unit (§4.5). -/
def TimeSpan.ceil (s : TimeSpan) (t : Time) : Except TimeError Time :=
  match s.floor t with
  | .error e => .error e
  | .ok f => if f.epochUs = t.epochUs then .ok t else timeAdd f s

/-- Dynamic result of a numeric Python operation: either a bare float scalar
(in seconds) or a `Time` value (a float subclass carrying presentation
metadata). -/
inductive NumResult where
  | scalar (v : ℚ)
  | instant (t : Time)
deriving DecidableEq

/-- Modelled from the spec: `Time.__sub__` on another `Time` (not among the
sources).  The difference is the epoch difference; the notebook's recorded
cells show numeric operations on `Time` returning `Time` values (cell:
`Time(1970,1,30,0,0,0) / 2` renders as `Time: 1252800.0 (...)`) and show the
subtraction being passed through `float()` "as the resulting value would not
mean much in terms of calendar time", so the difference comes back wrapped
as a `Time` carrying the left operand's presentation metadata, not as a bare
scalar. -/
def timeSub (a b : Time) : NumResult :=
  let d := a.epochUs - b.epochUs
  let off := match a.tz with
    | some z => offsetAt z (Int.fdiv d usec)
    | none => a.offset
  .instant ⟨d, a.tz, off, a.guessing⟩

/-- The specification's words for `Instant - Instant` (§4.4): "always
well-defined and returns a plain scalar of seconds (no span object)" — stated
as a definition to compare with the modelled `timeSub`. -/
def timeSubSpecScalar (a b : Time) : NumResult :=
  .scalar (((a.epochUs - b.epochUs : Int) : ℚ) / 1000000)

/-- Numeric value of a dynamic result in seconds — the `float()` cast of the
notebook. -/
def NumResult.toScalar : NumResult → ℚ
  | .scalar v => v
  | .instant t => t.epochSeconds

/-- The notebook's slotting loop: starting from `cur`, repeatedly step by
`step` while strictly before `endT`, collecting the slot start times.  The
fuel bounds the recursion; any step error propagates. -/
def slotList (fuel : Nat) (cur endT : Time) (step : TimeSpan) : Except TimeError (List Time) :=
  match fuel with
  | 0 => .ok []
  | Nat.succ n =>
    if cur.epochUs < endT.epochUs then
      match timeAdd cur step with
      | .error e => .error e
      | .ok next =>
        match slotList n next endT step with
        | .error e => .error e
        | .ok rest => .ok (cur :: rest)
    else .ok []

end Propertime

deriving instance DecidableEq for Except

namespace Propertime

/-- The physical span of one hour, `TimeSpan('1h')`. -/
def span1h : TimeSpan := ⟨0, 0, 0, 0, 1, 0, 0, 0⟩

/-- The physical span of two hours, `TimeSpan('2h')`. -/
def span2h : TimeSpan := ⟨0, 0, 0, 0, 2, 0, 0, 0⟩

/-- The physical span of 3600 seconds, `TimeSpan('3600s')`. -/
def span3600s : TimeSpan := ⟨0, 0, 0, 0, 0, 0, 3600, 0⟩

/-- The physical span of 24 hours, `TimeSpan('24h')`. -/
def span24h : TimeSpan := ⟨0, 0, 0, 0, 24, 0, 0, 0⟩

/-- The physical span of 86400 seconds, `TimeSpan('86400s')`. -/
def span86400s : TimeSpan := ⟨0, 0, 0, 0, 0, 0, 86400, 0⟩

/-- The calendar span of one day, `TimeSpan('1D')`. -/
def span1D : TimeSpan := ⟨0, 0, 0, 1, 0, 0, 0, 0⟩

/-- The physical span of one hour and thirty minutes, `TimeSpan('1h_30m')`. -/
def span1h30m : TimeSpan := ⟨0, 0, 0, 0, 1, 30, 0, 0⟩

/-- The calendar span of `k` months, `TimeSpan(months=k)`. -/
def monthsSpan (k : Int) : TimeSpan := ⟨0, k, 0, 0, 0, 0, 0, 0⟩

/-- The calendar span of `k` years, `TimeSpan(years=k)`. -/
def yearsSpan (k : Int) : TimeSpan := ⟨k, 0, 0, 0, 0, 0, 0, 0⟩

/-- The composite span of one month and one hour, `TimeSpan('1M_1h')`. -/
def span1M1h : TimeSpan := ⟨0, 1, 0, 0, 1, 0, 0, 0⟩

/-- The instant 2023-01-31T00:00:00 UTC. -/
def jan31 : Time := ⟨1675123200 * usec, some .utc, 0, false⟩

/-- The instant 2023-01-31T19:21:47 UTC. -/
def jan31Evening : Time := ⟨1675192907 * usec, some .utc, 0, false⟩

/-- The instant 2024-02-29T00:00:00 UTC (a leap day). -/
def feb29 : Time := ⟨1709164800 * usec, some .utc, 0, false⟩

/-- The instant 2023-03-25T02:15:00 Europe/Rome (CET, +01:00). -/
def romeMar25 : Time := ⟨1679706900 * usec, some .europeRome, 3600, false⟩

/-- The instant 2023-03-26T00:00:00 Europe/Rome (CET, +01:00). -/
def romeMar26 : Time := ⟨1679785200 * usec, some .europeRome, 3600, false⟩

/-- The instant 2023-10-28T02:15:00 Europe/Rome (CEST, +02:00). -/
def romeOct28 : Time := ⟨1698452100 * usec, some .europeRome, 7200, false⟩

/-- The instant 2023-10-28T02:15:00 Europe/Rome, constructed with guessing
mode enabled (the civil time is unambiguous; the flag is only carried). -/
def romeOct28G : Time := ⟨1698452100 * usec, some .europeRome, 7200, true⟩

/-- The instant 2023-10-29T00:00:00 Europe/Rome (CEST, +02:00). -/
def romeOct29 : Time := ⟨1698530400 * usec, some .europeRome, 7200, false⟩

/-- The instant 2023-10-30T00:00:00 Europe/Rome (CET, +01:00). -/
def romeOct30 : Time := ⟨1698620400 * usec, some .europeRome, 3600, false⟩

/-- The instant 2023-11-05T00:15:00 America/New_York (EDT, -04:00). -/
def ny0015 : Time := ⟨1699157700 * usec, some .americaNewYork, -14400, false⟩

/-- The first (DST, -04:00) instant displaying 2023-11-05T01:15:00 in
America/New_York. -/
def ny0115dst : Time := ⟨1699161300 * usec, some .americaNewYork, -14400, false⟩

/-- The second (standard, -05:00) instant displaying 2023-11-05T01:15:00 in
America/New_York. -/
def ny0115std : Time := ⟨1699164900 * usec, some .americaNewYork, -18000, false⟩

/-- The notebook's latest arrival time, 2023-12-03T16:56:00 UTC. -/
def arrivalMax : Time := ⟨1701622560 * usec, some .utc, 0, false⟩

/-- The notebook's earliest arrival time, 2023-12-03T16:12:00 UTC. -/
def arrivalMin : Time := ⟨1701619920 * usec, some .utc, 0, false⟩

/-- C10: constructing a Time from explicit calendar fields with no tz and no
offset argument does not fail as naive: the civil fields are interpreted in
UTC by default, so `Time(2023,12,3,16,12,0)` is the instant
2023-12-03T16:12:00 UTC with epoch 1701619920.0, and it renders back to the
same civil fields. -/
theorem claim_c10_default_utc :
    timeFromFields 2023 12 3 16 12 0 none none false =
      .ok (⟨1701619920 * usec, some .utc, 0, false⟩, none) ∧
    Time.toCivil ⟨1701619920 * usec, some .utc, 0, false⟩ = ⟨2023, 12, 3, 16, 12, 0⟩ ∧
    Time.epochSeconds ⟨1701619920 * usec, some .utc, 0, false⟩ = 1701619920 := by
  refine ⟨by decide, by decide, ?_⟩
  norm_num [Time.epochSeconds, usec]

/-- C7: flooring `Time(2023,1,31,19,21,47)` (UTC) by `TimeSpan('1D')` snaps
to the start of the calendar day, 2023-01-31T00:00:00 UTC (epoch 1675123200);
`shift` by the same span instead adds one full unit, yielding
2023-02-01T19:21:47 UTC (epoch 1675279307, next day at the same wall-clock
time); `ceil` snaps to the next unit boundary 2023-02-01T00:00:00 UTC (epoch
1675209600), an operation distinct from `shift`. -/
theorem claim_c7_floor_shift_ceil :
    tsParse ("1D") = some span1D ∧
    timeFromFields 2023 1 31 19 21 47 none none false = .ok (jan31Evening, none) ∧
    TimeSpan.floor span1D jan31Evening = .ok jan31 ∧
    Time.toCivil jan31 = ⟨2023, 1, 31, 0, 0, 0⟩ ∧
    TimeSpan.shift span1D jan31Evening = .ok ⟨1675279307 * usec, some .utc, 0, false⟩ ∧
    Time.toCivil ⟨1675279307 * usec, some .utc, 0, false⟩ = ⟨2023, 2, 1, 19, 21, 47⟩ ∧
    TimeSpan.ceil span1D jan31Evening = .ok ⟨1675209600 * usec, some .utc, 0, false⟩ ∧
    Time.toCivil ⟨1675209600 * usec, some .utc, 0, false⟩ = ⟨2023, 2, 1, 0, 0, 0⟩ ∧
    TimeSpan.shift span1D jan31Evening ≠ TimeSpan.ceil span1D jan31Evening := by
  refine ⟨by decide, by decide, by decide, by decide, by decide, by decide, by decide,
    by decide, by decide⟩

/-- C1: constructing the fold civil time 2023-11-05 01:15:00 in
America/New_York with guessing enabled and no explicit offset succeeds —
deterministically, the construction being a function of its arguments —
choosing the earlier (standard-time, -05:00) offset, which is the zone's
standard offset, and emitting a non-fatal warning identifying the chosen
offset; constructing the same civil time with explicit offset=-14400 yields
the other, DST-flagged instant; and the two resulting instants differ by
exactly 3600 seconds of epoch. -/
theorem claim_c1_fold_guessing :
    timeFromFields 2023 11 5 1 15 0 (some .americaNewYork) none true =
      .ok (⟨1699164900 * usec, some .americaNewYork, -18000, true⟩,
        some ⟨⟨2023, 11, 5, 1, 15, 0⟩, .americaNewYork, -18000⟩) ∧
    (zoneRule .americaNewYork).stdOffset = -18000 ∧
    Time.isDst ⟨1699164900 * usec, some .americaNewYork, -18000, true⟩ = some false ∧
    timeFromFields 2023 11 5 1 15 0 (some .americaNewYork) (some (-14400)) false =
      .ok (ny0115dst, none) ∧
    Time.isDst ny0115dst = some true ∧
    Time.epochSeconds ⟨1699164900 * usec, some .americaNewYork, -18000, true⟩ -
      Time.epochSeconds ny0115dst = 3600 := by
  refine ⟨by decide, by decide, by decide, by decide, by decide, ?_⟩
  norm_num [Time.epochSeconds, ny0115dst, usec]

/-- C8 counterexample: on the notebook's concrete arrival times, the code's
`Time - Time` does not return the bare scalar the claim describes: the
difference comes back wrapped as a `Time` value (epoch 2640 seconds,
carrying the left operand's zone metadata and rendering as the calendar time
1970-01-01 00:44:00 UTC), which is why the notebook passes it through
`float()`. -/
theorem claim_c8_counterexample :
    timeSub arrivalMax arrivalMin ≠ timeSubSpecScalar arrivalMax arrivalMin ∧
    timeSub arrivalMax arrivalMin = .instant ⟨2640 * usec, some .utc, 0, false⟩ ∧
    Time.toCivil ⟨2640 * usec, some .utc, 0, false⟩ = ⟨1970, 1, 1, 0, 44, 0⟩ := by
  refine ⟨?_, by decide, by decide⟩
  intro h
  rw [timeSub, timeSubSpecScalar] at h
  cases h

/-- C8 (amended): for every two Instants `a` and `b`, the subtraction is
always well-defined and numerically equals the epoch difference in seconds —
never a span object and never failing — but it is returned as a `Time`
(float-subclass) value carrying presentation metadata rather than as a bare
scalar; the `float()` cast recovers the plain scalar of seconds, 2640.0 on
the notebook's arrival times. -/
theorem claim_c8_amended :
    (∀ a b : Time, ∃ t : Time,
      timeSub a b = .instant t ∧ t.epochUs = a.epochUs - b.epochUs ∧ t.tz = a.tz ∧
      (timeSub a b).toScalar = a.epochSeconds - b.epochSeconds ∧
      ∀ v : ℚ, timeSub a b ≠ .scalar v) ∧
    (timeSub arrivalMax arrivalMin).toScalar = 2640 := by
  constructor
  · intro a b
    refine ⟨_, rfl, rfl, rfl, ?_, ?_⟩
    · simp only [timeSub, NumResult.toScalar, Time.epochSeconds]
      push_cast
      ring
    · intro v h
      rw [timeSub] at h
      cases h
  · have h : timeSub arrivalMax arrivalMin = .instant ⟨2640 * usec, some .utc, 0, false⟩ := by
      decide
    rw [h]
    norm_num [NumResult.toScalar, Time.epochSeconds, usec]

/-- C2 counterexample: the code's span equality accepts
`TimeSpan('1h') == TimeSpan('3600s')` (the Quickstart notebook asserts it)
although their components differ — hours 1 versus 0 and seconds 0 versus
3600 — contradicting the claim that two spans are equal only if every
component matches exactly. -/
theorem claim_c2_counterexample :
    tsParse ("1h") = some span1h ∧ tsParse ("3600s") = some span3600s ∧
    tsEq span1h span3600s = true ∧
    span1h.hours ≠ span3600s.hours ∧ span1h.seconds ≠ span3600s.seconds := by
  refine ⟨by decide, by decide, by decide, by decide, by decide⟩

/-- C2 (amended): spans with any calendar component are equal only if every
component matches exactly, and a calendar span is never equal to a physical
span — in particular `TimeSpan('1D') != TimeSpan('86400s')` — but two purely
physical spans are equal exactly when their fixed durations in seconds are
equal, so `TimeSpan('1h') == TimeSpan('3600s')` and
`TimeSpan('24h') == TimeSpan('86400s')`. -/
theorem claim_c2_amended :
    (∀ a b : TimeSpan, (a.isCalendar = true ∨ b.isCalendar = true) →
      (tsEq a b = true ↔ a = b)) ∧
    (∀ a b : TimeSpan, a.isCalendar = false → b.isCalendar = false →
      (tsEq a b = true ↔ a.physicalUs = b.physicalUs)) ∧
    tsParse ("24h") = some span24h ∧ tsParse ("86400s") = some span86400s ∧
    tsParse ("1D") = some span1D ∧
    tsEq span24h span86400s = true ∧ tsEq span1h span3600s = true ∧
    tsEq span1D span86400s = false := by
  refine ⟨?_, ?_, by decide, by decide, by decide, by decide, by decide, by decide⟩
  · intro a b h
    rcases h with h | h <;> simp [tsEq, h]
  · intro a b ha hb
    simp [tsEq, ha, hb]

/-- C2 witness: the amended componentwise rule applied at the concrete
calendar span `TimeSpan('1D')` against itself. -/
theorem claim_c2_amended_witness : tsEq span1D span1D = true :=
  (claim_c2_amended.1 span1D span1D (Or.inl (by decide))).mpr rfl

/-- C3 (amended): for every Instant carrying a named zone and constructed
without guessing mode, adding a TimeSpan with a calendar component whose
resulting civil date-time falls in a DST gap or fold of that zone fails, and
the error wraps the original instant, the attempted span and the inner
gap/ambiguity error; in particular `Time(2023,3,25,2,15,0, tz='Europe/Rome')
+ TimeSpan('1D')` fails with the nonexistent-time error and
`Time(2023,10,28,2,15,0, tz='Europe/Rome') + TimeSpan('1D')` fails with the
ambiguous-time error.  (When the construction's guessing mode was propagated
the fold case instead succeeds, per the spec's own exception — see the
counterexample.) -/
theorem claim_c3_amended :
    (∀ (t : Time) (s : TimeSpan) (z : ZoneName) (c : Civil) (e : TimeError),
      s.isCalendar = true → t.tz = some z → t.guessing = false →
      civilDest t s = .ok c → resolve z c none false = .error e →
      timeAdd t s = .error (.cannotShift t s e)) ∧
    timeFromFields 2023 3 25 2 15 0 (some .europeRome) none false = .ok (romeMar25, none) ∧
    timeAdd romeMar25 span1D =
      .error (.cannotShift romeMar25 span1D (.nonexistent ⟨2023, 3, 26, 2, 15, 0⟩ .europeRome)) ∧
    timeFromFields 2023 10 28 2 15 0 (some .europeRome) none false = .ok (romeOct28, none) ∧
    timeAdd romeOct28 span1D =
      .error (.cannotShift romeOct28 span1D (.ambiguous ⟨2023, 10, 29, 2, 15, 0⟩ .europeRome)) := by
  refine ⟨?_, by decide, by decide, by decide, by decide⟩
  intro t s z c e hcal htz hguess hdest hres
  simp [timeAdd, hcal, hdest, htz, hguess, hres]

/-- C3 witness: the amended failure rule applied at the concrete Europe/Rome
gap example. -/
theorem claim_c3_amended_witness :
    timeAdd romeMar25 span1D =
      .error (.cannotShift romeMar25 span1D (.nonexistent ⟨2023, 3, 26, 2, 15, 0⟩ .europeRome)) :=
  claim_c3_amended.1 romeMar25 span1D .europeRome ⟨2023, 3, 26, 2, 15, 0⟩
    (.nonexistent ⟨2023, 3, 26, 2, 15, 0⟩ .europeRome) (by decide) (by decide) (by decide)
    (by decide) (by decide)

/-- C3 counterexample: the claim as stated quantifies over every Instant
carrying a named zone, but an instant constructed with guessing mode
propagates that mode through addition (§4.4 step 4), so
`Time(2023,10,28,2,15,0, tz='Europe/Rome', guessing=True) + TimeSpan('1D')`
lands on the 2023-10-29 02:15 fold and succeeds instead of failing. -/
theorem claim_c3_counterexample :
    timeFromFields 2023 10 28 2 15 0 (some .europeRome) none true = .ok (romeOct28G, none) ∧
    timeAdd romeOct28G span1D = .ok ⟨1698542100 * usec, some .europeRome, 3600, true⟩ ∧
    resolve .europeRome ⟨2023, 10, 29, 2, 15, 0⟩ none false =
      .error (.ambiguous ⟨2023, 10, 29, 2, 15, 0⟩ .europeRome) := by
  refine ⟨by decide, by decide, by decide⟩

/-- C4: for every Instant and every TimeSpan with a months or years
component (composite spans included), if applying the calendar components
yields a day-of-month that does not exist in the target month the addition
fails with a calendar-overflow error naming the offending civil date and the
years (or months) amount of the span, and never silently clamps to
month-end: the years step fails when the day does not exist in the same
month of the shifted year, and the subsequent months step fails when the day
does not exist in the month it lands on; in particular
`Time(2023,1,31,0,0,0) + TimeSpan('1M')` fails with the months overflow,
`Time(2024,2,29,0,0,0) + TimeSpan('1Y')` fails with the years overflow, and
the composite `Time(2023,1,31,0,0,0) + TimeSpan('1M_1h')` also fails. -/
theorem claim_c4_calendar_overflow :
    (∀ (t : Time) (s : TimeSpan), s.years ≠ 0 →
      daysInMonth (t.toCivil.year + s.years) t.toCivil.month < t.toCivil.day →
      timeAdd t s = .error (.dayOutOfRangeYears t.toCivil s.years)) ∧
    (∀ (t : Time) (s : TimeSpan) (c1 : Civil), s.months ≠ 0 →
      applyYears t.toCivil s.years = .ok c1 →
      daysInMonth (c1.year + Int.ediv (c1.month - 1 + s.months) 12)
          (Int.emod (c1.month - 1 + s.months) 12 + 1) < c1.day →
      timeAdd t s = .error (.dayOutOfRange c1 s.months)) ∧
    tsParse ("1M") = some (monthsSpan 1) ∧
    tsParse ("1Y") = some (yearsSpan 1) ∧
    tsParse ("1M_1h") = some span1M1h ∧
    timeFromFields 2023 1 31 0 0 0 none none false = .ok (jan31, none) ∧
    timeAdd jan31 (monthsSpan 1) = .error (.dayOutOfRange ⟨2023, 1, 31, 0, 0, 0⟩ 1) ∧
    timeFromFields 2024 2 29 0 0 0 none none false = .ok (feb29, none) ∧
    timeAdd feb29 (yearsSpan 1) = .error (.dayOutOfRangeYears ⟨2024, 2, 29, 0, 0, 0⟩ 1) ∧
    timeAdd jan31 span1M1h = .error (.dayOutOfRange ⟨2023, 1, 31, 0, 0, 0⟩ 1) := by
  refine ⟨?_, ?_, by decide, by decide, by decide, by decide, by decide, by decide,
    by decide, by decide⟩
  · intro t s hy h
    have hgt := not_le.mpr h
    simp [timeAdd, TimeSpan.isCalendar, civilDest, applyYears,
      bne_iff_ne, beq_iff_eq, hy, hgt]
  · intro t s c1 hm hy h
    have hgt := not_le.mpr h
    simp [timeAdd, TimeSpan.isCalendar, civilDest, applyMonths,
      bne_iff_ne, beq_iff_eq, hm, hy, hgt]

/-- C4 witness: the months-overflow rule applied at the concrete 31 January
plus one month example, and the years-overflow rule applied at the concrete
29 February 2024 plus one year example. -/
theorem claim_c4_witness :
    timeAdd jan31 (monthsSpan 1) = .error (.dayOutOfRange (Time.toCivil jan31) 1) ∧
    timeAdd feb29 (yearsSpan 1) = .error (.dayOutOfRangeYears (Time.toCivil feb29) 1) :=
  ⟨claim_c4_calendar_overflow.2.1 jan31 (monthsSpan 1) (Time.toCivil jan31)
      (by decide) (by decide) (by decide),
    claim_c4_calendar_overflow.1 feb29 (yearsSpan 1) (by decide) (by decide)⟩

/-- C5: starting from `Time(2023,10,29,0,0,0, tz='Europe/Rome')` with end
one calendar day later, stepping by `TimeSpan('1h')` while strictly before
the end crosses the DST-end fold and yields exactly 25 hourly samples, not
24, the 02:00 wall-clock hour occurring twice with different epochs
(1698537600 and 1698541200 seconds). -/
theorem claim_c5_25_hourly_slots :
    tsParse ("1h") = some span1h ∧
    timeFromFields 2023 10 29 0 0 0 (some .europeRome) none false = .ok (romeOct29, none) ∧
    timeAdd romeOct29 span1D = .ok romeOct30 ∧
    (slotList 48 romeOct29 romeOct30 span1h).map List.length = .ok 25 ∧
    (slotList 48 romeOct29 romeOct30 span1h).map
        (fun l => (l.map (fun t => ((Time.toCivil t).hour, t.epochUs))).take 4) =
      .ok [(0, 1698530400 * usec), (1, 1698534000 * usec), (2, 1698537600 * usec),
        (2, 1698541200 * usec)] := by
  refine ⟨by decide, by decide, by decide, by decide, by decide⟩

/-- C6: `as_seconds` fails with `UndefinedSpanDuration` exactly when the
span's kind is Calendar and no starting instant is supplied; for a Physical
span it is always defined without context (`TimeSpan('1h_30m').as_seconds()
== 5400`), and with a starting instant a calendar span's duration is the
actual contextual length: `TimeSpan('1D').as_seconds(starting_at=
Time(2023,3,26,0,0,0, tz='Europe/Rome')) == 82800` on the DST-short day. -/
theorem claim_c6_as_seconds_contract :
    (∀ s : TimeSpan,
      (TimeSpan.as_seconds s none = .error .undefinedSpanDuration) ↔ s.isCalendar = true) ∧
    tsParse ("1h_30m") = some span1h30m ∧
    TimeSpan.as_seconds span1h30m none = .ok 5400 ∧
    timeFromFields 2023 3 26 0 0 0 (some .europeRome) none false = .ok (romeMar26, none) ∧
    TimeSpan.as_seconds span1D (some romeMar26) = .ok 82800 := by
  refine ⟨?_, by decide, ?_, by decide, ?_⟩
  · intro s
    cases hc : s.isCalendar <;>
      simp [TimeSpan.as_seconds, TimeSpan.asSecondsUs, hc, Except.map]
  · have h : TimeSpan.asSecondsUs span1h30m none = .ok 5400000000 := by decide
    simp only [TimeSpan.as_seconds, h, Except.map]
    norm_num
  · have h : TimeSpan.asSecondsUs span1D (some romeMar26) = .ok 82800000000 := by decide
    simp only [TimeSpan.as_seconds, h, Except.map]
    norm_num

/-- C9: for every Instant and every purely physical TimeSpan, the addition
always succeeds — even when the resulting civil time falls in a DST fold —
and the result's epoch equals the instant's epoch plus the span's
context-free duration; in particular both instants of the America/New_York
2023-11-05 01:15 fold are reachable from `Time(2023,11,5,0,15,0,
tz='America/New_York')` by adding `TimeSpan('1h')` (the DST-flagged first
pass) and `TimeSpan('2h')` (the standard-time second pass). -/
theorem claim_c9_physical_total :
    (∀ (t : Time) (s : TimeSpan), s.isCalendar = false →
      ∃ t2 : Time, timeAdd t s = .ok t2 ∧ t2.epochUs = t.epochUs + s.physicalUs ∧
        t2.tz = t.tz ∧ s.asSecondsUs none = .ok s.physicalUs ∧
        t2.epochSeconds = t.epochSeconds + (s.physicalUs : ℚ) / 1000000) ∧
    tsParse ("1h") = some span1h ∧ tsParse ("2h") = some span2h ∧
    timeFromFields 2023 11 5 0 15 0 (some .americaNewYork) none false = .ok (ny0015, none) ∧
    timeAdd ny0015 span1h = .ok ny0115dst ∧ Time.isDst ny0115dst = some true ∧
    timeAdd ny0015 span2h = .ok ny0115std ∧ Time.isDst ny0115std = some false ∧
    Time.toCivil ny0115dst = ⟨2023, 11, 5, 1, 15, 0⟩ ∧
    Time.toCivil ny0115std = ⟨2023, 11, 5, 1, 15, 0⟩ := by
  refine ⟨?_, by decide, by decide, by decide, by decide, by decide, by decide, by decide,
    by decide, by decide⟩
  intro t s h
  simp only [timeAdd, h, Bool.false_eq_true, if_false]
  refine ⟨_, rfl, rfl, rfl, ?_, ?_⟩
  · simp [TimeSpan.asSecondsUs, h]
  · simp only [Time.epochSeconds]
    push_cast
    ring

/-- C9 witness: the physical-addition rule applied at the concrete
`TimeSpan('1h')` step from 2023-11-05T00:15 America/New_York. -/
theorem claim_c9_witness :
    ∃ t2 : Time, timeAdd ny0015 span1h = .ok t2 ∧
      t2.epochUs = ny0015.epochUs + span1h.physicalUs ∧ t2.tz = ny0015.tz ∧
      span1h.asSecondsUs none = .ok span1h.physicalUs ∧
      t2.epochSeconds = ny0015.epochSeconds + (span1h.physicalUs : ℚ) / 1000000 :=
  claim_c9_physical_total.1 ny0015 span1h (by decide)

end Propertime
